import Mathlib

/-!
# Kanoon-Sathi RAG pipeline — verification development

Shallow embedding of the retrieval-augmented-generation query path of the
Kanoon-Sathi legal-assistant server (TypeScript):

* `src/utils/ai.ts` — `detectDocumentType`, `correctGrammar` (the pure
  post-processing of each model call; the model call itself is an external
  service modelled as an oracle result).
* `src/tools/retriever.ts` — `vectorDbRetriever`, `criminalCodeRetriever`,
  `civilCodeRetriever`, `criminalProcedureRetriever` (row→document
  conversion and post-filters; the SQL nearest-neighbour search is an
  external service whose row list is an input).
* `src/index.ts` (full variant with optional `userId`) — `autonomousAIFlow`,
  `getChatHistory`, and the process-wide `CHAT_HISTORY` map.

External calls (grammar model, classifier model, vector search, generation
model, chat-store writes) are modelled as `Except`-valued oracle results in
an `Env` record; the flow consumes them in exactly the order the source
awaits them, and the state it mutates (in-memory history map, persisted
message rows) is passed and returned explicitly.
-/

namespace KanoonSathi

/-- JSON-ish metadata value (the `jsonb` metadata column and the values of
`options.metadataFilter : Record<string, any>`), with strict (`===`)
equality. -/
inductive JsonVal where
  | s : String → JsonVal
  | n : ℚ → JsonVal
  | b : Bool → JsonVal
  | nullV : JsonVal
deriving DecidableEq

/-! ## Classifier string processing (`src/utils/ai.ts`, `detectDocumentType`)

JS strings are modelled as `List Char`; `toLowerCase` as `Char.toLower`
per character and `trim` as dropping leading/trailing whitespace (the
source only ever matches the ASCII tag names, for which these agree with
the JS semantics). -/

/-- JS `String.prototype.trim` whitespace test (restricted to the
whitespace characters Lean knows; the tag substrings contain none). -/
def isWS (c : Char) : Bool := c.isWhitespace

/-- `s.toLowerCase()` on the character list. -/
def lowerChars (s : List Char) : List Char := s.map Char.toLower

/-- `s.trim()` on the character list. -/
def trimChars (s : List Char) : List Char :=
  ((s.dropWhile isWS).reverse.dropWhile isWS).reverse

/-- `s.includes(sub)` — substring (infix) containment. -/
def includesChars (s sub : List Char) : Bool := decide (sub <:+: s)

/-- `response.text?.toLowerCase().trim() || "constitution"` from
`detectDocumentType`: `none` models an absent `response.text`; an empty
(or all-whitespace, hence trim-empty) text is falsy in JS and also falls
back to `"constitution"`. -/
def normalizeResponse (t : Option String) : List Char :=
  match t with
  | none => "constitution".data
  | some s =>
    let d := trimChars (lowerChars s.data)
    if d.isEmpty then "constitution".data else d

/-- The pure tag-mapping tail of `detectDocumentType` (`src/utils/ai.ts`
lines 47–61): lower-case + trim the model response, then the substring
if-chain with the criminal_procedure priority and the final `"none"`
fallback. -/
def mapResponseToDocType (t : Option String) : String :=
  let d := normalizeResponse t
  if includesChars d "criminal".data && includesChars d "procedure".data then
    "criminal_procedure"
  else if includesChars d "criminal".data then "criminal"
  else if includesChars d "civil".data then "civil"
  else if includesChars d "constitution".data then "constitution"
  else "none"

/-- `detectDocumentType`: one awaited `ai.generate` call (oracle result
`callResult`; `.error` when the call throws, otherwise the optional
response text) followed by the pure tag mapping. There is no try/catch in
the source, so a thrown call propagates as `.error`. -/
def detectDocumentType (callResult : Except String (Option String)) :
    Except String String :=
  callResult.map mapResponseToDocType

/-! ## Retriever post-filter logic (`src/tools/retriever.ts`) -/

/-- One row of a nearest-neighbour SQL result for the `documents`
(constitution) table: `content`, `metadata` (jsonb) and
`1 - (embedding <=> $1) AS similarity_score`. -/
structure Row where
  content : String
  metadata : List (String × JsonVal)
  similarity_score : ℚ
deriving DecidableEq

/-- A row of the `criminal_code` / `civil_code` / `criminal_procedure`
tables, which additionally select `page_number`. -/
structure CodeRow extends Row where
  page_number : ℚ
deriving DecidableEq

/-- A Genkit `Document` produced by `Document.fromText(content, {metadata})`. -/
structure Doc where
  content : String
  metadata : List (String × JsonVal)
deriving DecidableEq

/-- Object-key lookup on the metadata record (first binding wins, so a
prepended key shadows one spread in from `row.metadata`). -/
def getMeta (m : List (String × JsonVal)) (k : String) : Option JsonVal :=
  (m.find? (fun kv => kv.1 = k)).map (fun kv => kv.2)

/-- `Document.fromText(row.content, { metadata: {...row.metadata,
similarityScore: row.similarity_score} })` in `vectorDbRetriever`: the
explicit key overrides any same-named key of `row.metadata`. -/
def vectorDbDoc (r : Row) : Doc :=
  ⟨r.content, ("similarityScore", JsonVal.n r.similarity_score) :: r.metadata⟩

/-- The document conversion of the three code retrievers, which also spread
in `pageNumber: row.page_number`. -/
def codeDoc (r : CodeRow) : Doc :=
  ⟨r.content,
    ("similarityScore", JsonVal.n r.similarity_score)
      :: ("pageNumber", JsonVal.n r.page_number) :: r.metadata⟩

/-- The retrievers' shared options shape (`allRetrieversOptionsSchema`).
`k` only feeds the SQL `LIMIT` of the external search, which is modelled
as already applied to the input row list. -/
structure RetrieverOptions where
  k : Option Nat
  similarityThreshold : Option ℚ
  metadataFilter : Option (List (String × JsonVal))
  pageFilter : Option ℚ
deriving DecidableEq

/-- JS truthiness of an optional number (`if (options.similarityThreshold)`
/ `if (options?.pageFilter)`): present and nonzero. -/
def jsTruthyNum (t : Option ℚ) : Bool :=
  match t with
  | some q => decide (q ≠ 0)
  | none => false

/-- `doc.metadata?.similarityScore >= (options.similarityThreshold ?? 0)`.
The source always stores a number under `similarityScore`; a missing key
(JS `undefined >= t`) is `false`. -/
def thresholdCheck (t : Option ℚ) (d : Doc) : Bool :=
  match getMeta d.metadata "similarityScore" with
  | some (JsonVal.n q) => decide (t.getD 0 ≤ q)
  | _ => false

/-- `Object.entries(options.metadataFilter!).every(([key, value]) =>
doc.metadata?.[key] === value)`. -/
def metadataMatch (f : List (String × JsonVal)) (d : Doc) : Bool :=
  f.all (fun kv =>
    match getMeta d.metadata kv.1 with
    | some w => decide (w = kv.2)
    | none => false)

/-- `doc.metadata?.pageNumber === options.pageFilter` (the guard has
already established `pageFilter` is present and nonzero). -/
def pageCheck (p : Option ℚ) (d : Doc) : Bool :=
  match getMeta d.metadata "pageNumber" with
  | some (JsonVal.n q) => decide (some q = p)
  | _ => false

/-- `vectorDbRetriever` (`src/tools/retriever.ts` lines 23–63) applied to
the raw SQL rows: convert to documents, then the similarity-threshold
filter (under a JS truthy guard, so a threshold of 0 skips it), then the
metadata filter (guarded by presence; any object, even `{}`, is truthy). -/
def vectorDbRetriever (rows : List Row) (o : RetrieverOptions) : List Doc :=
  let documents := rows.map vectorDbDoc
  let filteredDocs :=
    if jsTruthyNum o.similarityThreshold then
      documents.filter (fun d => thresholdCheck o.similarityThreshold d)
    else documents
  let filteredDocs2 :=
    if o.metadataFilter.isSome then
      filteredDocs.filter (fun d => metadataMatch (o.metadataFilter.getD []) d)
    else filteredDocs
  filteredDocs2

/-- The shared body of `criminalCodeRetriever`, `civilCodeRetriever` and
`criminalProcedureRetriever` (textually identical in the source, lines
94–133, 165–204, 236–275): threshold filter then page filter; these three
never read `options.metadataFilter`. -/
def codeRetrieverRun (rows : List CodeRow) (o : RetrieverOptions) : List Doc :=
  let documents := rows.map codeDoc
  let filteredDocs :=
    if jsTruthyNum o.similarityThreshold then
      documents.filter (fun d => thresholdCheck o.similarityThreshold d)
    else documents
  let filteredDocs2 :=
    if jsTruthyNum o.pageFilter then
      filteredDocs.filter (fun d => pageCheck o.pageFilter d)
    else filteredDocs
  filteredDocs2

/-- `criminalCodeRetriever` — one instance of the shared code-corpus body. -/
def criminalCodeRetriever (rows : List CodeRow) (o : RetrieverOptions) : List Doc :=
  codeRetrieverRun rows o

/-- `civilCodeRetriever` — textually identical body in the source. -/
def civilCodeRetriever (rows : List CodeRow) (o : RetrieverOptions) : List Doc :=
  codeRetrieverRun rows o

/-- `criminalProcedureRetriever` — textually identical body in the source. -/
def criminalProcedureRetriever (rows : List CodeRow) (o : RetrieverOptions) : List Doc :=
  codeRetrieverRun rows o

/-! ## The pipeline flow (`src/index.ts`, full variant with optional `userId`) -/

/-- Message role (`"user" | "model" | "system"`). -/
inductive Role where
  | user : Role
  | model : Role
  | system : Role
deriving DecidableEq

/-- `ChatMessagePart` — `{ text: string }`. -/
structure ChatMessagePart where
  text : String
deriving DecidableEq

/-- `ChatInterface` — one turn of the in-memory history. -/
structure ChatInterface where
  role : Role
  content : List ChatMessagePart
deriving DecidableEq

/-- One persisted message row written through `ChatService.addMessage`. -/
structure DbRow where
  chatId : String
  content : String
  sender : Role
deriving DecidableEq

/-- The request assembled for the main `ai.generate` call (the constant
tool list is omitted: it never varies and no claim mentions it). -/
structure GenRequest where
  system : String
  prompt : String
  docs : List Doc
  messages : List ChatInterface
deriving DecidableEq

/-- The flow input schema `{ text, chatroomId, userId? }`. -/
structure FlowInput where
  text : String
  chatroomId : String
  userId : Option String
deriving DecidableEq

/-- Oracle results of the external calls the flow awaits, in source order.
`.error` models the call throwing. The two `ChatService` writes sit inside
try/catch blocks in the source, so their failures are swallowed. -/
structure Env where
  grammarResult : Except String (Option String)
  classifyResult : Except String (Option String)
  retrieveResult : Except String (List Doc)
  generateResult : Except String (Option String)
  dbUserSave : Except String Unit
  dbModelSave : Except String Unit

/-- The corpus retrievers `getDocumentRetriever` can select. -/
inductive Retriever where
  | criminalCode : Retriever
  | civilCode : Retriever
  | criminalProcedure : Retriever
  | vectorDb : Retriever
deriving DecidableEq

/-- The `switch (documentType)` of `getDocumentRetriever`: any other tag
(including `"none"`) selects no retriever (`return null`). -/
def retrieverOfDocType (dt : String) : Option Retriever :=
  if dt = "criminal" then some Retriever.criminalCode
  else if dt = "civil" then some Retriever.civilCode
  else if dt = "criminal_procedure" then some Retriever.criminalProcedure
  else if dt = "constitution" then some Retriever.vectorDb
  else none

/-- `getDocumentRetriever`: awaits `detectDocumentType` (whose error, being
uncaught, propagates) and maps the tag through the switch. -/
def getDocumentRetriever (callResult : Except String (Option String)) :
    Except String (Option Retriever) :=
  (detectDocumentType callResult).map retrieverOfDocType

/-- JS `||` on an optional string (`response.text || dflt`): an absent or
empty string is falsy. -/
def jsOrS (t : Option String) (dflt : String) : String :=
  match t with
  | some s => if s = "" then dflt else s
  | none => dflt

/-- JS truthiness of an optional string (`input.userId`, `response.text`). -/
def jsTruthyS (t : Option String) : Bool :=
  match t with
  | some s => decide (s ≠ "")
  | none => false

/-- `correctGrammar` (`src/utils/ai.ts`): one model call (oracle result),
then `return response.text || text`. -/
def correctGrammar (callResult : Except String (Option String)) (text : String) :
    Except String String :=
  callResult.map (fun t => jsOrS t text)

/-- The process-wide `CHAT_HISTORY` map, as a total function defaulting to
`[]` (`CHAT_HISTORY.get(id) || []`). -/
def HistMap : Type := String → List ChatInterface

/-- `CHAT_HISTORY.set(k, v)`. -/
def histSet (h : HistMap) (k : String) (v : List ChatInterface) : HistMap :=
  fun k2 => if k2 = k then v else h k2

/-- The user turn `{ role: "user", content: [{ text }] }`. -/
def userTurn (text : String) : ChatInterface :=
  ⟨Role.user, [⟨text⟩]⟩

/-- The model turn `{ role: "model", content: [{ text }] }`. -/
def modelTurn (text : String) : ChatInterface :=
  ⟨Role.model, [⟨text⟩]⟩

/-- The system instruction constant. The source text is a long fixed
instruction block; its content plays no role in any property, so it is
abbreviated to its first line. -/
def systemPrompt : String :=
  "You are Kanoon Sathi, an AI legal assistant specializing in Nepali law."

/-- Everything one request leaves behind: the returned value (or the
propagated error), the final in-memory history map, the persisted rows,
and a record of which retrieval/generation calls were issued and with
what arguments. -/
structure FlowResult where
  outcome : Except String String
  hist : HistMap
  db : List DbRow
  retrievalCall : Option (Retriever × String)
  genCall : Option GenRequest

/-- `autonomousAIFlow` (`src/index.ts`, the variant with optional
`userId`), as explicit state passing over the in-memory map and the
message table. Stage order is exactly the source's: grammar correction,
retriever selection (classification), retrieval, user-turn persistence,
generation, model-turn persistence, `return response.text ||
"No response generated."`. An uncaught stage error aborts the request
with the state mutated so far. -/
def autonomousAIFlow (env : Env) (input : FlowInput) (hist0 : HistMap)
    (db0 : List DbRow) : FlowResult :=
  let prompt := input.text
  match correctGrammar env.grammarResult prompt with
  | Except.error e => ⟨Except.error e, hist0, db0, none, none⟩
  | Except.ok refinedPrompt =>
    match getDocumentRetriever env.classifyResult with
    | Except.error e => ⟨Except.error e, hist0, db0, none, none⟩
    | Except.ok selectedRetriever =>
      let docsResult : Except String (List Doc) :=
        match selectedRetriever with
        | some _ => env.retrieveResult
        | none => Except.ok []
      let retrievalCall := selectedRetriever.map (fun r => (r, refinedPrompt))
      match docsResult with
      | Except.error e => ⟨Except.error e, hist0, db0, retrievalCall, none⟩
      | Except.ok docs =>
        -- `if (input.userId && input.chatroomId) { try { ...save user msg } }
        -- else { CHAT_HISTORY.set(..., [...old, user turn]) }`
        let auth := jsTruthyS input.userId && decide (input.chatroomId ≠ "")
        let hist1 :=
          if auth then hist0
          else histSet hist0 input.chatroomId
            (hist0 input.chatroomId ++ [userTurn prompt])
        let db1 :=
          if auth then
            match env.dbUserSave with
            | Except.ok _ => db0 ++ [⟨input.chatroomId, prompt, Role.user⟩]
            | Except.error _ => db0
          else db0
        -- `messages: input.userId ? [] : CHAT_HISTORY.get(...) || []`
        let req : GenRequest :=
          ⟨systemPrompt, refinedPrompt, docs,
            if jsTruthyS input.userId then [] else hist1 input.chatroomId⟩
        match env.generateResult with
        | Except.error e => ⟨Except.error e, hist1, db1, retrievalCall, some req⟩
        | Except.ok respText =>
          -- `if (input.userId && input.chatroomId && response.text) { try
          -- { ...save model msg } } else { CHAT_HISTORY.set(..., [...old,
          -- model turn with response.text || ""]) }`
          let modelSaveCond :=
            jsTruthyS input.userId && decide (input.chatroomId ≠ "")
              && jsTruthyS respText
          let hist2 :=
            if modelSaveCond then hist1
            else histSet hist1 input.chatroomId
              (hist1 input.chatroomId ++ [modelTurn (jsOrS respText "")])
          let db2 :=
            if modelSaveCond then
              match env.dbModelSave with
              | Except.ok _ =>
                db1 ++ [⟨input.chatroomId, jsOrS respText "", Role.model⟩]
              | Except.error _ => db1
            else db1
          ⟨Except.ok (jsOrS respText "No response generated."), hist2, db2,
            retrievalCall, some req⟩

/-- `getChatHistory` flow: maps each stored turn to
`{ role, content: parts.map(p => p.text).join(" ") }`. -/
def getChatHistory (hist : HistMap) (chatroomId : String) :
    List (Role × String) :=
  (hist chatroomId).map (fun msg =>
    (msg.role, String.intercalate " " (msg.content.map (fun p => p.text))))

/-! ## Helper lemmas -/

/-- Lookup finds the key just prepended to the metadata record. -/
theorem getMeta_cons_self (k : String) (v : JsonVal) (m : List (String × JsonVal)) :
    getMeta ((k, v) :: m) k = some v := by
  simp [getMeta]

/-- A passed threshold check yields a numeric score ≥ the threshold. -/
theorem thresholdCheck_sound {t : ℚ} {d : Doc}
    (h : thresholdCheck (some t) d = true) :
    ∃ q, getMeta d.metadata "similarityScore" = some (JsonVal.n q) ∧ t ≤ q := by
  unfold thresholdCheck at h
  rcases hm : getMeta d.metadata "similarityScore" with _ | v <;> rw [hm] at h
  · cases h
  · rcases v with s | q | b | _
    · cases h
    · exact ⟨q, rfl, by simpa using h⟩
    · cases h
    · cases h

/-- A passed metadata match pins every filter key to its filter value. -/
theorem metadataMatch_sound {f : List (String × JsonVal)} {d : Doc}
    (h : metadataMatch f d = true) :
    ∀ kv ∈ f, getMeta d.metadata kv.1 = some kv.2 := by
  intro kv hkv
  unfold metadataMatch at h
  rw [List.all_eq_true] at h
  have hk := h kv hkv
  rcases hm : getMeta d.metadata kv.1 with _ | w <;> rw [hm] at hk
  · cases hk
  · have : w = kv.2 := by simpa using hk
    rw [this]

/-- A guarded filter never adds elements. -/
theorem ite_filter_sublist (c : Prop) [Decidable c] (p : Doc → Bool)
    (l : List Doc) : List.Sublist (if c then l.filter p else l) l := by
  split
  · exact List.filter_sublist l
  · exact List.Sublist.refl l

/-- An infix run with a non-matching head survives `dropWhile`. -/
theorem infix_dropWhile {sub l : List Char} {p : Char → Bool} (h : sub <:+: l)
    (c : Char) (hc : sub.head? = some c) (hpc : p c = false) :
    sub <:+: l.dropWhile p := by
  induction l with
  | nil => simpa using h
  | cons x xs ih =>
    rw [List.dropWhile_cons]
    split
    · rename_i hpx
      apply ih
      rcases List.infix_cons_iff.mp h with hpre | hinf
      · exfalso
        cases sub with
        | nil => cases hc
        | cons a t =>
          have hax : a = x := (List.cons_prefix_cons.mp hpre).1
          have hac : a = c := by simpa using hc
          rw [← hax, hac, hpc] at hpx
          cases hpx
      · exact hinf
    · exact h

/-- A nonempty all-non-whitespace infix survives `trim`. -/
theorem infix_trimChars {sub l : List Char} (h : sub <:+: l) (hne : sub ≠ [])
    (hws : ∀ c ∈ sub, isWS c = false) :
    sub <:+: trimChars l := by
  unfold trimChars
  have h1 : sub <:+: l.dropWhile isWS := by
    cases sub with
    | nil => exact absurd rfl hne
    | cons c rest => exact infix_dropWhile h c rfl (hws c (by simp))
  have h2 : sub.reverse <:+: (l.dropWhile isWS).reverse := List.IsInfix.reverse h1
  have h3 : sub.reverse <:+: ((l.dropWhile isWS).reverse).dropWhile isWS := by
    cases hr : sub.reverse with
    | nil =>
      exact absurd (by simpa using congrArg List.reverse hr) hne
    | cons c rest =>
      refine infix_dropWhile (hr ▸ h2) c rfl (hws c ?_)
      have : c ∈ sub.reverse := by rw [hr]; simp
      simpa using this
  have h4 := List.IsInfix.reverse h3
  simpa using h4

/-- A falsy (absent or empty) optional string resolves under `||` to the
default. -/
theorem jsOrS_of_falsy {r : Option String} (h : jsTruthyS r = false)
    (d : String) : jsOrS r d = d := by
  rcases r with _ | t
  · rfl
  · have : t = "" := by simpa [jsTruthyS] using h
    simp [jsOrS, this]

/-- `response.text || "No response generated."` is never the empty
string. -/
theorem jsOrS_fallback_ne_empty (r : Option String) :
    jsOrS r "No response generated." ≠ "" := by
  rcases r with _ | t
  · decide
  · by_cases h : t = "" <;> simp [jsOrS, h]

/-- Joining a one-part message content with `" "` is the part itself. -/
theorem intercalate_single (t : String) : String.intercalate " " [t] = t :=
  rfl

/-! ## Claims -/

/-- **C4.** For every retrieval with `similarityThreshold = t` set, `t` in
[0,1], and raw search scores in the documented [0,1] range, every passage
in the filtered result of the two cited retrievers carries a similarity
score ≥ t. (At t = 0 the JS truthy guard skips the filter, but the score
range makes the bound hold anyway.) -/
theorem similarity_threshold_sound (rows : List Row) (crows : List CodeRow)
    (o : RetrieverOptions) (t : ℚ)
    (ht : o.similarityThreshold = some t) (ht0 : 0 ≤ t) (ht1 : t ≤ 1)
    (hrows : ∀ r ∈ rows, 0 ≤ r.similarity_score ∧ r.similarity_score ≤ 1)
    (hcrows : ∀ r ∈ crows, 0 ≤ r.similarity_score ∧ r.similarity_score ≤ 1) :
    (∀ d ∈ vectorDbRetriever rows o,
      ∃ q, getMeta d.metadata "similarityScore" = some (JsonVal.n q) ∧ t ≤ q) ∧
    (∀ d ∈ criminalCodeRetriever crows o,
      ∃ q, getMeta d.metadata "similarityScore" = some (JsonVal.n q) ∧ t ≤ q) := by
  constructor
  · intro d hd
    simp only [vectorDbRetriever, ht] at hd
    have hd1 : d ∈ if jsTruthyNum (some t) = true then
        (rows.map vectorDbDoc).filter (fun d => thresholdCheck (some t) d)
      else rows.map vectorDbDoc :=
      (ite_filter_sublist _ _ _).subset hd
    by_cases hz : t = 0
    · subst hz
      have : jsTruthyNum (some (0:ℚ)) = false := by simp [jsTruthyNum]
      rw [if_neg (by simp [this])] at hd1
      rcases List.mem_map.mp hd1 with ⟨r, hr, hrd⟩
      refine ⟨r.similarity_score, ?_, (hrows r hr).1⟩
      rw [← hrd]
      exact getMeta_cons_self _ _ _
    · have : jsTruthyNum (some t) = true := by simp [jsTruthyNum, hz]
      rw [if_pos (by simp [this])] at hd1
      exact thresholdCheck_sound (List.mem_filter.mp hd1).2
  · intro d hd
    simp only [criminalCodeRetriever, codeRetrieverRun, ht] at hd
    have hd1 : d ∈ if jsTruthyNum (some t) = true then
        (crows.map codeDoc).filter (fun d => thresholdCheck (some t) d)
      else crows.map codeDoc :=
      (ite_filter_sublist _ _ _).subset hd
    by_cases hz : t = 0
    · subst hz
      have : jsTruthyNum (some (0:ℚ)) = false := by simp [jsTruthyNum]
      rw [if_neg (by simp [this])] at hd1
      rcases List.mem_map.mp hd1 with ⟨r, hr, hrd⟩
      refine ⟨r.similarity_score, ?_, (hcrows r hr).1⟩
      rw [← hrd]
      exact getMeta_cons_self _ _ _
    · have : jsTruthyNum (some t) = true := by simp [jsTruthyNum, hz]
      rw [if_pos (by simp [this])] at hd1
      exact thresholdCheck_sound (List.mem_filter.mp hd1).2

/-- Witness for C4: the surviving passage of a concrete thresholded
retrieval carries a score above the threshold. -/
theorem similarity_threshold_sound_witness :
    ∃ q, getMeta (vectorDbDoc ⟨"a", [], (1:ℚ)⟩).metadata "similarityScore" =
      some (JsonVal.n q) ∧ (1:ℚ) ≤ q :=
  (similarity_threshold_sound
    [⟨"a", [], (1:ℚ)⟩, ⟨"c", [], (0:ℚ)⟩]
    [] ⟨none, some (1:ℚ), none, none⟩ (1:ℚ) rfl (by decide) (by decide)
    (by decide) (by decide)).1 (vectorDbDoc ⟨"a", [], (1:ℚ)⟩) (by decide)

/-- **C5, counterexample.** The claim fails on the code corpora: with
`metadataFilter = {k: "v"}`, `criminalCodeRetriever` returns a passage
whose metadata has `k = "w"` — the three code retrievers never read
`metadataFilter`. -/
theorem metadata_filter_all_retrievers_cex :
    ¬ (∀ d ∈ criminalCodeRetriever [⟨⟨"x", [("k", JsonVal.s "w")], 0⟩, 3⟩]
          ⟨none, none, some [("k", JsonVal.s "v")], none⟩,
        ∀ kv ∈ [("k", JsonVal.s "v")],
          getMeta d.metadata kv.1 = some kv.2) := by
  decide

/-- **C5, amended.** Only the constitution retriever (`vectorDbRetriever`)
honours `metadataFilter`: every passage it returns matches every filter
key. The criminal/civil/criminal-procedure retrievers ignore the option
entirely — their output does not depend on it. -/
theorem metadata_filter_sound (rows : List Row) (crows : List CodeRow)
    (o : RetrieverOptions) (f : List (String × JsonVal))
    (g : Option (List (String × JsonVal)))
    (hf : o.metadataFilter = some f) :
    (∀ d ∈ vectorDbRetriever rows o,
      ∀ kv ∈ f, getMeta d.metadata kv.1 = some kv.2) ∧
    codeRetrieverRun crows { o with metadataFilter := g } =
      codeRetrieverRun crows o := by
  constructor
  · intro d hd
    simp only [vectorDbRetriever, hf, Option.isSome_some, Option.getD_some,
      if_true] at hd
    exact metadataMatch_sound (List.mem_filter.mp hd).2
  · rfl

/-- Witness for the amended C5: the surviving passage of a concrete
metadata-filtered constitution retrieval matches the filter, and a
concrete code retrieval is unchanged by dropping the filter. -/
theorem metadata_filter_sound_witness :
    getMeta (vectorDbDoc ⟨"b", [("k", JsonVal.s "v")], 0⟩).metadata "k" =
      some (JsonVal.s "v") ∧
    codeRetrieverRun [⟨⟨"x", [("k", JsonVal.s "w")], 0⟩, 3⟩]
        { (⟨none, none, some [("k", JsonVal.s "v")], none⟩ : RetrieverOptions)
          with metadataFilter := none } =
      codeRetrieverRun [⟨⟨"x", [("k", JsonVal.s "w")], 0⟩, 3⟩]
        ⟨none, none, some [("k", JsonVal.s "v")], none⟩ :=
  have h := metadata_filter_sound
    [⟨"a", [("k", JsonVal.s "w")], 0⟩, ⟨"b", [("k", JsonVal.s "v")], 0⟩]
    [⟨⟨"x", [("k", JsonVal.s "w")], 0⟩, 3⟩]
    ⟨none, none, some [("k", JsonVal.s "v")], none⟩
    [("k", JsonVal.s "v")] none rfl
  ⟨h.1 (vectorDbDoc ⟨"b", [("k", JsonVal.s "v")], 0⟩) (by decide)
    ("k", JsonVal.s "v") (by decide), h.2⟩

/-- **C6.** For every retrieval and every combination of filter options,
the result of each of the four retrievers is a sublist of the unfiltered
(converted) search result: filtering only removes passages and never
reorders them. -/
theorem filtering_preserves_order (rows : List Row) (crows : List CodeRow)
    (o : RetrieverOptions) :
    List.Sublist (vectorDbRetriever rows o) (rows.map vectorDbDoc) ∧
    List.Sublist (criminalCodeRetriever crows o) (crows.map codeDoc) ∧
    List.Sublist (civilCodeRetriever crows o) (crows.map codeDoc) ∧
    List.Sublist (criminalProcedureRetriever crows o) (crows.map codeDoc) := by
  have hv : List.Sublist (vectorDbRetriever rows o) (rows.map vectorDbDoc) := by
    simp only [vectorDbRetriever]
    exact (ite_filter_sublist _ _ _).trans (ite_filter_sublist _ _ _)
  have hc : List.Sublist (codeRetrieverRun crows o) (crows.map codeDoc) := by
    simp only [codeRetrieverRun]
    exact (ite_filter_sublist _ _ _).trans (ite_filter_sublist _ _ _)
  exact ⟨hv, hc, hc, hc⟩

/-- **C7.** Any classifier response containing both `"criminal"` and
`"procedure"` case-insensitively (i.e. as substrings of its lower-cased
text) maps to the `criminal_procedure` tag, never the plain criminal tag. -/
theorem classifier_procedure_priority (s : String)
    (hcrim : "criminal".data <:+: lowerChars s.data)
    (hproc : "procedure".data <:+: lowerChars s.data) :
    mapResponseToDocType (some s) = "criminal_procedure" := by
  have h1 : "criminal".data <:+: trimChars (lowerChars s.data) :=
    infix_trimChars hcrim (by decide) (by decide)
  have h2 : "procedure".data <:+: trimChars (lowerChars s.data) :=
    infix_trimChars hproc (by decide) (by decide)
  have hne : (trimChars (lowerChars s.data)).isEmpty = false := by
    rcases hd : trimChars (lowerChars s.data) with _ | ⟨c, cs⟩
    · rw [hd] at h1
      have h0 : "criminal".data = [] := List.sublist_nil.mp h1.sublist
      exact absurd h0 (by decide)
    · rfl
  have hb1 : includesChars (trimChars (lowerChars s.data)) "criminal".data
      = true := by
    simpa [includesChars] using h1
  have hb2 : includesChars (trimChars (lowerChars s.data)) "procedure".data
      = true := by
    simpa [includesChars] using h2
  simp only [mapResponseToDocType, normalizeResponse, hne, Bool.false_eq_true,
    if_false, hb1, hb2, Bool.and_self, if_true]

/-- Witness for C7 at a concrete classifier response. -/
theorem classifier_procedure_priority_witness :
    mapResponseToDocType (some "Criminal Procedure Code") = "criminal_procedure" :=
  classifier_procedure_priority "Criminal Procedure Code" (by decide) (by decide)

/-- **C1, counterexample.** When the classification call throws, the
request fails with that error and generation is never invoked — the
pipeline does not absorb the failure into a `none`-retrieval fallback. -/
theorem classification_error_cex :
    (autonomousAIFlow
        ⟨Except.ok (some "Hello"), Except.error "classify failed",
          Except.ok [], Except.ok (some "hi"), Except.ok (), Except.ok ()⟩
        ⟨"Hello", "c1", none⟩ (fun _ => []) []).outcome =
      Except.error "classify failed" ∧
    (autonomousAIFlow
        ⟨Except.ok (some "Hello"), Except.error "classify failed",
          Except.ok [], Except.ok (some "hi"), Except.ok (), Except.ok ()⟩
        ⟨"Hello", "c1", none⟩ (fun _ => []) []).genCall = none :=
  ⟨rfl, rfl⟩

/-- **C1, amended.** `detectDocumentType` is awaited without any
try/catch, so an error of the classification call propagates: the whole
request fails with that error, no retrieval or generation call is issued,
and the history map and message table are left untouched. -/
theorem classification_error_propagates (env : Env) (input : FlowInput)
    (hist0 : HistMap) (db0 : List DbRow) (g : Option String) (e : String)
    (hg : env.grammarResult = Except.ok g)
    (hc : env.classifyResult = Except.error e) :
    autonomousAIFlow env input hist0 db0 =
      ⟨Except.error e, hist0, db0, none, none⟩ := by
  simp only [autonomousAIFlow, correctGrammar, getDocumentRetriever,
    detectDocumentType, hg, hc, Except.map]

/-- Witness for the amended C1 at a concrete failing classification. -/
theorem classification_error_propagates_witness :
    autonomousAIFlow
        ⟨Except.ok none, Except.error "boom", Except.ok [],
          Except.ok (some "hi"), Except.ok (), Except.ok ()⟩
        ⟨"Hi", "c2", none⟩ (fun _ => []) [] =
      ⟨Except.error "boom", fun _ => [], [], none, none⟩ :=
  classification_error_propagates _ _ _ _ none "boom" rfl rfl

/-- **C2, counterexample.** An empty classification response does not
resolve to `none`: `response.text?.toLowerCase().trim() || "constitution"`
makes it fall back to the constitution tag, and the flow then issues a
retrieval against the constitution corpus. -/
theorem empty_response_cex :
    mapResponseToDocType (some "") = "constitution" ∧
    (autonomousAIFlow
        ⟨Except.ok (some "hi"), Except.ok (some ""),
          Except.ok [⟨"d", []⟩], Except.ok (some "ans"),
          Except.ok (), Except.ok ()⟩
        ⟨"hi", "c1", none⟩ (fun _ => []) []).retrievalCall =
      some (Retriever.vectorDb, "hi") :=
  ⟨rfl, rfl⟩

/-- **C2, amended.** A classification response whose lower-cased, trimmed
text is nonempty and contains none of the recognized tag substrings
resolves to `none` and the pipeline performs no retrieval (the document
sequence handed to generation is empty); an empty, whitespace-only or
absent response instead defaults to the constitution tag and the
constitution retriever is invoked. -/
theorem classifier_fallback_behaviour (env : Env) (input : FlowInput)
    (hist0 : HistMap) (db0 : List DbRow) (g : Option String) (s : String)
    (hg : env.grammarResult = Except.ok g)
    (hc : env.classifyResult = Except.ok (some s))
    (hne : (trimChars (lowerChars s.data)).isEmpty = false)
    (h1 : includesChars (trimChars (lowerChars s.data)) "criminal".data = false)
    (h2 : includesChars (trimChars (lowerChars s.data)) "civil".data = false)
    (h3 : includesChars (trimChars (lowerChars s.data)) "constitution".data
      = false) :
    (mapResponseToDocType (some s) = "none" ∧
     (autonomousAIFlow env input hist0 db0).retrievalCall = none ∧
     ∀ rq, (autonomousAIFlow env input hist0 db0).genCall = some rq →
       rq.docs = []) ∧
    (∀ (env2 : Env) (g2 : Option String) (s2 : String),
      env2.grammarResult = Except.ok g2 →
      env2.classifyResult = Except.ok (some s2) →
      trimChars (lowerChars s2.data) = [] →
      mapResponseToDocType (some s2) = "constitution" ∧
      (autonomousAIFlow env2 input hist0 db0).retrievalCall =
        some (Retriever.vectorDb, jsOrS g2 input.text)) := by
  have hmap : mapResponseToDocType (some s) = "none" := by
    simp only [mapResponseToDocType, normalizeResponse, hne,
      Bool.false_eq_true, if_false, h1, h2, h3, Bool.false_and]
  constructor
  · refine ⟨hmap, ?_, ?_⟩
    · have hsel : retrieverOfDocType (mapResponseToDocType (some s)) = none := by
        rw [hmap]; decide
      simp only [autonomousAIFlow, correctGrammar, getDocumentRetriever,
        detectDocumentType, hg, hc, Except.map, hsel]
      rcases hgen : env.generateResult with e | r <;> simp [hgen]
    · intro rq hrq
      have hsel : retrieverOfDocType (mapResponseToDocType (some s)) = none := by
        rw [hmap]; decide
      simp only [autonomousAIFlow, correctGrammar, getDocumentRetriever,
        detectDocumentType, hg, hc, Except.map, hsel] at hrq
      rcases hgen : env.generateResult with e | r <;>
          simp only [hgen] at hrq <;> cases hrq <;> rfl
  · intro env2 g2 s2 hg2 hc2 hempty
    have hmap2 : mapResponseToDocType (some s2) = "constitution" := by
      simp only [mapResponseToDocType, normalizeResponse, hempty]
      decide
    have hsel2 : retrieverOfDocType (mapResponseToDocType (some s2)) =
        some Retriever.vectorDb := by
      rw [hmap2]; decide
    refine ⟨hmap2, ?_⟩
    simp only [autonomousAIFlow, correctGrammar, getDocumentRetriever,
      detectDocumentType, hg2, hc2, Except.map, hsel2]
    rcases hr2 : env2.retrieveResult with e | ds
    · simp [hr2]
    · rcases hgen2 : env2.generateResult with e | r <;> simp [hr2, hgen2]

/-- Witness for the amended C2 at a concrete unrecognized response and a
concrete empty response. -/
theorem classifier_fallback_behaviour_witness :
    (mapResponseToDocType (some "weather report") = "none" ∧
     (autonomousAIFlow
         ⟨Except.ok (some "hi"), Except.ok (some "weather report"),
           Except.ok [], Except.ok (some "ans"), Except.ok (), Except.ok ()⟩
         ⟨"hi", "c1", none⟩ (fun _ => []) []).retrievalCall = none) ∧
    (mapResponseToDocType (some "") = "constitution" ∧
     (autonomousAIFlow
         ⟨Except.ok (some "hi"), Except.ok (some ""),
           Except.ok [], Except.ok (some "ans"), Except.ok (), Except.ok ()⟩
         ⟨"hi", "c1", none⟩ (fun _ => []) []).retrievalCall =
       some (Retriever.vectorDb, jsOrS (some "hi") "hi")) :=
  have h := classifier_fallback_behaviour
    ⟨Except.ok (some "hi"), Except.ok (some "weather report"),
      Except.ok [], Except.ok (some "ans"), Except.ok (), Except.ok ()⟩
    ⟨"hi", "c1", none⟩ (fun _ => []) [] (some "hi") "weather report"
    rfl rfl (by decide) (by decide) (by decide) (by decide)
  ⟨⟨h.1.1, h.1.2.1⟩,
    h.2 ⟨Except.ok (some "hi"), Except.ok (some ""), Except.ok [],
        Except.ok (some "ans"), Except.ok (), Except.ok ()⟩
      (some "hi") "" rfl rfl (by decide)⟩

/-- **C3, counterexample.** On the unauthenticated path a generation-call
failure does *not* leave the in-memory history as it was: the user turn
was appended before generation ran, so the table for that conversation
has changed. -/
theorem history_mutation_on_failure_cex :
    (autonomousAIFlow
        ⟨Except.ok none, Except.ok (some "weather"), Except.ok [],
          Except.error "generation failed", Except.ok (), Except.ok ()⟩
        ⟨"Hello", "c1", none⟩ (fun _ => []) []).outcome =
      Except.error "generation failed" ∧
    (autonomousAIFlow
        ⟨Except.ok none, Except.ok (some "weather"), Except.ok [],
          Except.error "generation failed", Except.ok (), Except.ok ()⟩
        ⟨"Hello", "c1", none⟩ (fun _ => []) []).hist "c1" ≠
      (fun _ => ([] : List ChatInterface)) "c1" := by
  exact ⟨rfl, by decide⟩

/-- **C3, amended.** On the unauthenticated path: a retrieval-stage
failure (before the history write) leaves the in-memory table untouched,
but a generation-stage failure happens after the user turn has been
appended — the conversation's history then holds exactly the prior turns
plus the user turn, and no model turn. -/
theorem unauth_failure_history_effect (env : Env) (input : FlowInput)
    (hist0 : HistMap) (db0 : List DbRow) (g c : Option String)
    (ds : List Doc) (r : Retriever) (e : String)
    (hg : env.grammarResult = Except.ok g)
    (hc : env.classifyResult = Except.ok c)
    (hu : jsTruthyS input.userId = false) :
    (env.retrieveResult = Except.error e →
      retrieverOfDocType (mapResponseToDocType c) = some r →
      (autonomousAIFlow env input hist0 db0).hist = hist0 ∧
      (autonomousAIFlow env input hist0 db0).outcome = Except.error e) ∧
    (env.retrieveResult = Except.ok ds →
      env.generateResult = Except.error e →
      (autonomousAIFlow env input hist0 db0).hist input.chatroomId =
        hist0 input.chatroomId ++ [userTurn input.text] ∧
      (autonomousAIFlow env input hist0 db0).outcome = Except.error e) := by
  constructor
  · intro hr hsel
    constructor <;>
      simp [autonomousAIFlow, correctGrammar, getDocumentRetriever,
        detectDocumentType, hg, hc, Except.map, hsel, hr]
  · intro hr hgen
    rcases hsel : retrieverOfDocType (mapResponseToDocType c) with _ | r2 <;>
      constructor <;>
      simp [autonomousAIFlow, correctGrammar, getDocumentRetriever,
        detectDocumentType, hg, hc, Except.map, hsel, hr, hgen, hu, histSet]

/-- Witness for the amended C3 at concrete failing retrieval/generation
calls. -/
theorem unauth_failure_history_effect_witness :
    ((autonomousAIFlow
        ⟨Except.ok none, Except.ok (some "civil"), Except.error "db down",
          Except.ok (some "x"), Except.ok (), Except.ok ()⟩
        ⟨"Hello", "c1", none⟩ (fun _ => []) []).hist = (fun _ => []) ∧
     (autonomousAIFlow
        ⟨Except.ok none, Except.ok (some "civil"), Except.error "db down",
          Except.ok (some "x"), Except.ok (), Except.ok ()⟩
        ⟨"Hello", "c1", none⟩ (fun _ => []) []).outcome =
       Except.error "db down") ∧
    ((autonomousAIFlow
        ⟨Except.ok none, Except.ok (some "civil"), Except.ok [],
          Except.error "gen down", Except.ok (), Except.ok ()⟩
        ⟨"Hello", "c1", none⟩ (fun _ => []) []).hist "c1" =
       (fun _ => ([] : List ChatInterface)) "c1" ++ [userTurn "Hello"] ∧
     (autonomousAIFlow
        ⟨Except.ok none, Except.ok (some "civil"), Except.ok [],
          Except.error "gen down", Except.ok (), Except.ok ()⟩
        ⟨"Hello", "c1", none⟩ (fun _ => []) []).outcome =
       Except.error "gen down") :=
  ⟨(unauth_failure_history_effect
      ⟨Except.ok none, Except.ok (some "civil"), Except.error "db down",
        Except.ok (some "x"), Except.ok (), Except.ok ()⟩
      ⟨"Hello", "c1", none⟩ (fun _ => []) [] none (some "civil") []
      Retriever.civilCode "db down" rfl rfl rfl).1 rfl (by decide),
   (unauth_failure_history_effect
      ⟨Except.ok none, Except.ok (some "civil"), Except.ok [],
        Except.error "gen down", Except.ok (), Except.ok ()⟩
      ⟨"Hello", "c1", none⟩ (fun _ => []) [] none (some "civil") []
      Retriever.civilCode "gen down" rfl rfl rfl).2 rfl rfl⟩

/-- **C8.** When the generation call returns empty (or absent) text the
flow returns the fixed fallback string `"No response generated."`; and no
successful request ever returns the empty string. -/
theorem generation_empty_fallback (env : Env) (input : FlowInput)
    (hist0 : HistMap) (db0 : List DbRow) :
    (∀ (g c : Option String) (ds : List Doc) (r : Option String),
      env.grammarResult = Except.ok g → env.classifyResult = Except.ok c →
      env.retrieveResult = Except.ok ds → env.generateResult = Except.ok r →
      jsTruthyS r = false →
      (autonomousAIFlow env input hist0 db0).outcome =
        Except.ok "No response generated.") ∧
    (∀ s, (autonomousAIFlow env input hist0 db0).outcome = Except.ok s →
      s ≠ "") := by
  constructor
  · intro g c ds r hg hc hr hgen hfalsy
    have hjs := jsOrS_of_falsy hfalsy "No response generated."
    rcases hsel : retrieverOfDocType (mapResponseToDocType c) with _ | r2 <;>
      simp [autonomousAIFlow, correctGrammar, getDocumentRetriever,
        detectDocumentType, hg, hc, Except.map, hsel, hr, hgen, hjs]
  · intro s hs
    rcases hg : env.grammarResult with e | g
    · simp [autonomousAIFlow, correctGrammar, hg, Except.map] at hs
    · rcases hc : env.classifyResult with e | c
      · simp [autonomousAIFlow, correctGrammar, getDocumentRetriever,
          detectDocumentType, hg, hc, Except.map] at hs
      · rcases hsel : retrieverOfDocType (mapResponseToDocType c) with _ | r2
        · rcases hgen : env.generateResult with e | r <;>
            simp [autonomousAIFlow, correctGrammar, getDocumentRetriever,
              detectDocumentType, hg, hc, Except.map, hsel, hgen] at hs
          rw [← hs]
          exact jsOrS_fallback_ne_empty r
        · rcases hr : env.retrieveResult with e | ds
          · simp [autonomousAIFlow, correctGrammar, getDocumentRetriever,
              detectDocumentType, hg, hc, Except.map, hsel, hr] at hs
          · rcases hgen : env.generateResult with e | r <;>
              simp [autonomousAIFlow, correctGrammar, getDocumentRetriever,
                detectDocumentType, hg, hc, Except.map, hsel, hr, hgen] at hs
            rw [← hs]
            exact jsOrS_fallback_ne_empty r

/-- Witness for C8 at a concrete empty generation result. -/
theorem generation_empty_fallback_witness :
    (autonomousAIFlow
        ⟨Except.ok (some "hi"), Except.ok (some "none"), Except.ok [],
          Except.ok (some ""), Except.ok (), Except.ok ()⟩
        ⟨"hi", "c1", none⟩ (fun _ => []) []).outcome =
      Except.ok "No response generated." :=
  (generation_empty_fallback
      ⟨Except.ok (some "hi"), Except.ok (some "none"), Except.ok [],
        Except.ok (some ""), Except.ok (), Except.ok ()⟩
      ⟨"hi", "c1", none⟩ (fun _ => []) []).1
    (some "hi") (some "none") [] (some "") rfl rfl rfl rfl rfl

/-- **C9.** On the unauthenticated path an empty generation result gives
the caller the fallback string, yet the in-memory history still gains a
model turn whose text is the empty string, and `getChatHistory`
subsequently reports a model message with empty content. -/
theorem unauth_empty_generation_history (env : Env) (input : FlowInput)
    (hist0 : HistMap) (db0 : List DbRow) (g c : Option String) (ds : List Doc)
    (r : Option String)
    (hg : env.grammarResult = Except.ok g)
    (hc : env.classifyResult = Except.ok c)
    (hr : env.retrieveResult = Except.ok ds)
    (hgen : env.generateResult = Except.ok r)
    (hfalsy : jsTruthyS r = false)
    (hu : jsTruthyS input.userId = false) :
    (autonomousAIFlow env input hist0 db0).outcome =
      Except.ok "No response generated." ∧
    (autonomousAIFlow env input hist0 db0).hist input.chatroomId =
      hist0 input.chatroomId ++ [userTurn input.text, modelTurn ""] ∧
    getChatHistory (autonomousAIFlow env input hist0 db0).hist
        input.chatroomId =
      getChatHistory hist0 input.chatroomId ++
        [(Role.user, input.text), (Role.model, "")] := by
  have hjs0 := jsOrS_of_falsy hfalsy ""
  have hjs := jsOrS_of_falsy hfalsy "No response generated."
  have hmain : (autonomousAIFlow env input hist0 db0).hist input.chatroomId =
      hist0 input.chatroomId ++ [userTurn input.text, modelTurn ""] := by
    rcases hsel : retrieverOfDocType (mapResponseToDocType c) with _ | r2 <;>
      simp [autonomousAIFlow, correctGrammar, getDocumentRetriever,
        detectDocumentType, hg, hc, Except.map, hsel, hr, hgen, hu, hjs0,
        histSet]
  refine ⟨?_, hmain, ?_⟩
  · rcases hsel : retrieverOfDocType (mapResponseToDocType c) with _ | r2 <;>
      simp [autonomousAIFlow, correctGrammar, getDocumentRetriever,
        detectDocumentType, hg, hc, Except.map, hsel, hr, hgen, hjs]
  · simp only [getChatHistory]
    rw [hmain]
    simp [userTurn, modelTurn, intercalate_single]

/-- Witness for C9 at a concrete conversation. -/
theorem unauth_empty_generation_history_witness :
    (autonomousAIFlow
        ⟨Except.ok none, Except.ok (some "none"), Except.ok [],
          Except.ok (some ""), Except.ok (), Except.ok ()⟩
        ⟨"Hello", "c1", none⟩ (fun _ => []) []).outcome =
      Except.ok "No response generated." ∧
    (autonomousAIFlow
        ⟨Except.ok none, Except.ok (some "none"), Except.ok [],
          Except.ok (some ""), Except.ok (), Except.ok ()⟩
        ⟨"Hello", "c1", none⟩ (fun _ => []) []).hist "c1" =
      (fun _ => ([] : List ChatInterface)) "c1" ++
        [userTurn "Hello", modelTurn ""] ∧
    getChatHistory (autonomousAIFlow
        ⟨Except.ok none, Except.ok (some "none"), Except.ok [],
          Except.ok (some ""), Except.ok (), Except.ok ()⟩
        ⟨"Hello", "c1", none⟩ (fun _ => []) []).hist "c1" =
      getChatHistory (fun _ => []) "c1" ++
        [(Role.user, "Hello"), (Role.model, "")] :=
  unauth_empty_generation_history
    ⟨Except.ok none, Except.ok (some "none"), Except.ok [],
      Except.ok (some ""), Except.ok (), Except.ok ()⟩
    ⟨"Hello", "c1", none⟩ (fun _ => []) [] none (some "none") [] (some "")
    rfl rfl rfl rfl rfl rfl

/-- **C10.** The user turn recorded in conversation history — the
in-memory map entry on the unauthenticated path, the persisted message
row on the authenticated path — is the original input text, while both
the retrieval query and the generation prompt are the grammar-corrected
text `jsOrS g input.text`; whenever correction changed the text, the
stored turn and the generated-over prompt differ. -/
theorem pipeline_uses_corrected_text (env : Env) (input : FlowInput)
    (hist0 : HistMap) (db0 : List DbRow) (g c : Option String) (ds : List Doc)
    (r : Option String)
    (hg : env.grammarResult = Except.ok g)
    (hc : env.classifyResult = Except.ok c)
    (hr : env.retrieveResult = Except.ok ds)
    (hgen : env.generateResult = Except.ok r) :
    (∀ rq, (autonomousAIFlow env input hist0 db0).genCall = some rq →
      rq.prompt = jsOrS g input.text) ∧
    (∀ rt q, (autonomousAIFlow env input hist0 db0).retrievalCall =
        some (rt, q) → q = jsOrS g input.text) ∧
    (jsTruthyS input.userId = false →
      ∃ tail, (autonomousAIFlow env input hist0 db0).hist input.chatroomId =
        hist0 input.chatroomId ++ userTurn input.text :: tail) ∧
    ((jsTruthyS input.userId && decide (input.chatroomId ≠ "")) = true →
      env.dbUserSave = Except.ok () →
      ∃ tail, (autonomousAIFlow env input hist0 db0).db =
        db0 ++ (⟨input.chatroomId, input.text, Role.user⟩ : DbRow) :: tail) ∧
    (jsOrS g input.text ≠ input.text →
      ∀ rq, (autonomousAIFlow env input hist0 db0).genCall = some rq →
        rq.prompt ≠ input.text) := by
  have hprompt : ∀ rq, (autonomousAIFlow env input hist0 db0).genCall =
      some rq → rq.prompt = jsOrS g input.text := by
    intro rq hrq
    rcases hsel : retrieverOfDocType (mapResponseToDocType c) with _ | r2 <;>
      simp only [autonomousAIFlow, correctGrammar, getDocumentRetriever,
        detectDocumentType, hg, hc, Except.map, hsel, hr, hgen] at hrq <;>
      (injection hrq with h2; rw [← h2])
  refine ⟨hprompt, ?_, ?_, ?_, ?_⟩
  · intro rt q hcall
    rcases hsel : retrieverOfDocType (mapResponseToDocType c) with _ | r2 <;>
      simp only [autonomousAIFlow, correctGrammar, getDocumentRetriever,
        detectDocumentType, hg, hc, Except.map, hsel, hr, hgen] at hcall
    · exact Option.noConfusion hcall
    · injection hcall with h2
      injection h2 with ha hb
      exact hb.symm
  · intro hu
    refine ⟨[modelTurn (jsOrS r "")], ?_⟩
    rcases hsel : retrieverOfDocType (mapResponseToDocType c) with _ | r2 <;>
      simp [autonomousAIFlow, correctGrammar, getDocumentRetriever,
        detectDocumentType, hg, hc, Except.map, hsel, hr, hgen, hu, histSet]
  · intro hauth hsave
    have hparts := (Bool.and_eq_true _ _).mp hauth
    have hu2 : jsTruthyS input.userId = true := hparts.1
    have hcid : ¬ input.chatroomId = "" := by simpa using hparts.2
    cases hjr : jsTruthyS r
    · refine ⟨[], ?_⟩
      rcases hsel : retrieverOfDocType (mapResponseToDocType c) with _ | r2 <;>
        simp [autonomousAIFlow, correctGrammar, getDocumentRetriever,
          detectDocumentType, hg, hc, Except.map, hsel, hr, hgen, hu2, hcid,
          hsave, hjr]
    · rcases hms : env.dbModelSave with e | u
      · refine ⟨[], ?_⟩
        rcases hsel : retrieverOfDocType (mapResponseToDocType c) with _ | r2 <;>
          simp [autonomousAIFlow, correctGrammar, getDocumentRetriever,
            detectDocumentType, hg, hc, Except.map, hsel, hr, hgen, hu2, hcid,
            hsave, hjr, hms]
      · refine ⟨[⟨input.chatroomId, jsOrS r "", Role.model⟩], ?_⟩
        rcases hsel : retrieverOfDocType (mapResponseToDocType c) with _ | r2 <;>
          simp [autonomousAIFlow, correctGrammar, getDocumentRetriever,
            detectDocumentType, hg, hc, Except.map, hsel, hr, hgen, hu2, hcid,
            hsave, hjr, hms]
  · intro hdiff rq hrq
    rw [hprompt rq hrq]
    exact hdiff

/-- Witness for C10 at a request whose grammar correction changes the
text: the issued generation request's prompt is the corrected text, not
the stored original. -/
theorem pipeline_uses_corrected_text_witness :
    ((⟨systemPrompt, "Hello world", [], [userTurn "helo wrld"]⟩ :
        GenRequest).prompt = jsOrS (some "Hello world") "helo wrld") ∧
    ((⟨systemPrompt, "Hello world", [], [userTurn "helo wrld"]⟩ :
        GenRequest).prompt ≠ "helo wrld") :=
  have h := pipeline_uses_corrected_text
    ⟨Except.ok (some "Hello world"), Except.ok (some "none"), Except.ok [],
      Except.ok (some "ans"), Except.ok (), Except.ok ()⟩
    ⟨"helo wrld", "c1", none⟩ (fun _ => []) [] (some "Hello world")
    (some "none") [] (some "ans") rfl rfl rfl rfl
  ⟨h.1 ⟨systemPrompt, "Hello world", [], [userTurn "helo wrld"]⟩ rfl,
   h.2.2.2.2 (by decide) ⟨systemPrompt, "Hello world", [], [userTurn "helo wrld"]⟩
     rfl⟩

end KanoonSathi
